import Mathlib

/-!
Verification development for the gie20 agent system.

The Python sources are shallowly embedded: dicts become insertion-ordered
association lists, floats become rationals (reals where a square root is
taken), in-place mutation becomes explicit state passing, and a raised
exception becomes an explicit error value.  Wall-clock timestamps, file
logging and string formatting are not modelled.
-/

namespace Gie2

/-- Lookup in an association list: the value of the first pair whose key
matches, the semantics of Python `d[k]` / `d.get(k)` on a dict rendered as
its insertion-ordered item list. -/
def alookup {α β : Type} [DecidableEq α] (k : α) : List (α × β) → Option β
  | [] => none
  | p :: l => if p.1 = k then some p.2 else alookup k l

/-- Python dict assignment `d[k] = v`: overwrite in place when the key is
present (keeping its position), append otherwise. -/
def dictSet {α β : Type} [DecidableEq α] (l : List (α × β)) (k : α) (v : β) : List (α × β) :=
  if (alookup k l).isSome then l.map (fun p => if p.1 = k then (k, v) else p) else l ++ [(k, v)]

/-- Python in-place update `d[k] = f(d[k])` of an entry that is present
(`d[k]` raises `KeyError` otherwise; callers in this code base only touch
existing keys). -/
def dictUpd {α β : Type} [DecidableEq α] (l : List (α × β)) (k : α) (f : β → β) : List (α × β) :=
  l.map (fun p => if p.1 = k then (k, f p.2) else p)

/-- Python `int(q)`: truncation toward zero. -/
def pyInt (q : ℚ) : ℤ := if q < 0 then ⌈q⌉ else ⌊q⌋

/-- Round-half-to-even at integer resolution, the idealisation over ℚ of
Python `round`. -/
def roundHalfEven (x : ℚ) : ℤ :=
  if Int.fract x < 1/2 then ⌊x⌋
  else if 1/2 < Int.fract x then ⌊x⌋ + 1
  else if Even ⌊x⌋ then ⌊x⌋ else ⌊x⌋ + 1

/-- Python `round(x, 1)`: quantisation to one decimal place. -/
def round1 (x : ℚ) : ℚ := (roundHalfEven (10 * x) : ℚ) / 10

/-- One win/trial counter pair, the value type both of
`MetaReflection.knowledge` and of `GieMind.stats` (Python dicts with keys
`"win"` and `"trials"`). -/
structure Stat where
  win : ℕ
  trials : ℕ
deriving DecidableEq

/-- Key of `MetaReflection.knowledge`: the `(engine, noise, pressure, volume)`
tuple built in `MetaReflection.update`. -/
abbrev EngKey := String × ℚ × ℚ × ℚ

/-- The `MetaReflection.knowledge` dict, as an insertion-ordered association
list with (as Python dicts guarantee) unique keys. -/
abbrev Knowledge := List (EngKey × Stat)

/-- Blend of one shared key in `MetaReflection.merge_knowledge`:
`win = int((prev.win + v.win) * 0.5 + prev.win * 0.5)` and likewise for
trials, computed over ℚ with the truncation made explicit. -/
def mergeStat (prev v : Stat) : Stat :=
  { win := (pyInt (((prev.win : ℚ) + (v.win : ℚ)) * (1/2) + (prev.win : ℚ) * (1/2))).toNat
    trials := (pyInt (((prev.trials : ℚ) + (v.trials : ℚ)) * (1/2) + (prev.trials : ℚ) * (1/2))).toNat }

/-- One iteration of the `for k, v in remote_knowledge.items()` loop of
`MetaReflection.merge_knowledge`: blend when the key is already known,
adopt the remote entry otherwise. -/
def mergeStep (l : Knowledge) (kv : EngKey × Stat) : Knowledge :=
  match alookup kv.1 l with
  | some prev => dictSet l kv.1 (mergeStat prev kv.2)
  | none => dictSet l kv.1 kv.2

/-- `MetaReflection.merge_knowledge(remote_knowledge)`: fold every remote
entry into the local dict.  The function takes no merge identifier. -/
def merge_knowledge (l remote : Knowledge) : Knowledge := remote.foldl mergeStep l

theorem alookup_append {α β : Type} [DecidableEq α] (k : α) (l₁ l₂ : List (α × β)) :
    alookup k (l₁ ++ l₂) = ((alookup k l₁).orElse fun _ => alookup k l₂) := by
  induction l₁ with
  | nil => simp [alookup]
  | cons p l ih =>
    by_cases h : p.1 = k <;> simp [alookup, h, ih]

theorem alookup_set_map_self {α β : Type} [DecidableEq α] (k : α) (v : β) :
    ∀ l : List (α × β),
      alookup k (l.map fun p => if p.1 = k then (k, v) else p) = (alookup k l).map fun _ => v := by
  intro l
  induction l with
  | nil => simp [alookup]
  | cons p t ih =>
    by_cases hp : p.1 = k
    · simp [alookup, hp]
    · simp [alookup, hp, ih]

theorem alookup_set_map_ne {α β : Type} [DecidableEq α] (j k : α) (v : β) (hjk : j ≠ k) :
    ∀ l : List (α × β),
      alookup k (l.map fun p => if p.1 = j then (j, v) else p) = alookup k l := by
  intro l
  induction l with
  | nil => simp [alookup]
  | cons p t ih =>
    by_cases hp : p.1 = j
    · simp [alookup, hp, hjk, ih]
    · by_cases hk : p.1 = k
      · simp [alookup, hp, hk, Ne.symm hjk]
      · simp [alookup, hp, hk, ih]

theorem alookup_upd_map_self {α β : Type} [DecidableEq α] (k : α) (f : β → β) :
    ∀ l : List (α × β),
      alookup k (l.map fun p => if p.1 = k then (k, f p.2) else p) = (alookup k l).map f := by
  intro l
  induction l with
  | nil => simp [alookup]
  | cons p t ih =>
    by_cases hp : p.1 = k
    · simp [alookup, hp]
    · simp [alookup, hp, ih]

theorem alookup_upd_map_ne {α β : Type} [DecidableEq α] (j k : α) (f : β → β) (hjk : j ≠ k) :
    ∀ l : List (α × β),
      alookup k (l.map fun p => if p.1 = j then (j, f p.2) else p) = alookup k l := by
  intro l
  induction l with
  | nil => simp [alookup]
  | cons p t ih =>
    by_cases hp : p.1 = j
    · simp [alookup, hp, hjk, ih]
    · by_cases hk : p.1 = k
      · simp [alookup, hp, hk, Ne.symm hjk]
      · simp [alookup, hp, hk, ih]

theorem alookup_dictSet_self {α β : Type} [DecidableEq α] (l : List (α × β)) (k : α) (v : β) :
    alookup k (dictSet l k v) = some v := by
  unfold dictSet
  by_cases h : (alookup k l).isSome
  · rw [if_pos h, alookup_set_map_self]
    obtain ⟨w, hw⟩ := Option.isSome_iff_exists.mp h
    simp [hw]
  · rw [if_neg h, alookup_append, Option.not_isSome_iff_eq_none.mp h]
    simp [alookup, Option.orElse]

theorem alookup_dictSet_ne {α β : Type} [DecidableEq α] (l : List (α × β)) (j k : α) (v : β)
    (hjk : j ≠ k) : alookup k (dictSet l j v) = alookup k l := by
  unfold dictSet
  by_cases h : (alookup j l).isSome
  · rw [if_pos h, alookup_set_map_ne j k v hjk]
  · rw [if_neg h, alookup_append]
    cases hl : alookup k l with
    | none => simp [Option.orElse, alookup, hjk]
    | some w => simp [Option.orElse]

theorem alookup_dictUpd_self {α β : Type} [DecidableEq α] (l : List (α × β)) (k : α) (f : β → β) :
    alookup k (dictUpd l k f) = (alookup k l).map f := by
  unfold dictUpd
  exact alookup_upd_map_self k f l

theorem alookup_dictUpd_ne {α β : Type} [DecidableEq α] (l : List (α × β)) (j k : α) (f : β → β)
    (hjk : j ≠ k) : alookup k (dictUpd l j f) = alookup k l := by
  unfold dictUpd
  exact alookup_upd_map_ne j k f hjk l

theorem merge_knowledge_alookup_of_not_mem :
    ∀ (remote l : Knowledge) (k : EngKey), (∀ kv ∈ remote, kv.1 ≠ k) →
      alookup k (merge_knowledge l remote) = alookup k l := by
  intro remote
  induction remote with
  | nil => intro l k _; rfl
  | cons kv rest ih =>
    intro l k h
    have hkv : kv.1 ≠ k := h kv (by simp)
    have hrest : ∀ p ∈ rest, p.1 ≠ k := fun p hp => h p (by simp [hp])
    show alookup k (merge_knowledge (mergeStep l kv) rest) = alookup k l
    rw [ih (mergeStep l kv) k hrest]
    unfold mergeStep
    cases alookup kv.1 l with
    | none => exact alookup_dictSet_ne _ _ _ _ hkv
    | some prev => exact alookup_dictSet_ne _ _ _ _ hkv

/-- Merging, at a key present on both sides: the local entry keeps full
weight and the remote entry contributes half of each counter. -/
theorem merge_knowledge_alookup :
    ∀ (remote l : Knowledge) (k : EngKey) (e₁ e₂ : Stat), (remote.map Prod.fst).Nodup →
      alookup k l = some e₁ → alookup k remote = some e₂ →
      alookup k (merge_knowledge l remote) = some (mergeStat e₁ e₂) := by
  intro remote
  induction remote with
  | nil => intro l k e₁ e₂ _ _ h₂; simp [alookup] at h₂
  | cons kv rest ih =>
    intro l k e₁ e₂ hnd h₁ h₂
    by_cases hk : kv.1 = k
    · have he₂ : kv.2 = e₂ := by
        simpa [alookup, hk] using h₂
      have hrest : ∀ p ∈ rest, p.1 ≠ k := by
        intro p hp hpk
        exact (List.nodup_cons.mp hnd).1 (hk ▸ hpk ▸ List.mem_map_of_mem Prod.fst hp)
      show alookup k (merge_knowledge (mergeStep l kv) rest) = _
      rw [merge_knowledge_alookup_of_not_mem rest (mergeStep l kv) k hrest]
      unfold mergeStep
      rw [hk, h₁, he₂]
      exact alookup_dictSet_self _ _ _
    · have h₂rest : alookup k rest = some e₂ := by
        simpa [alookup, hk] using h₂
      have h₁step : alookup k (mergeStep l kv) = some e₁ := by
        unfold mergeStep
        cases alookup kv.1 l with
        | none => rw [alookup_dictSet_ne _ _ _ _ hk]; exact h₁
        | some prev => rw [alookup_dictSet_ne _ _ _ _ hk]; exact h₁
      exact ih (mergeStep l kv) k e₁ e₂ (List.nodup_cons.mp hnd).2 h₁step h₂rest

/-- Closed form of the blend: the local counters survive whole, the remote
counters are halved (with truncation). -/
theorem mergeStat_eq (p v : Stat) :
    mergeStat p v = ⟨p.win + v.win / 2, p.trials + v.trials / 2⟩ := by
  have key : ∀ a b : ℕ,
      (pyInt (((a : ℚ) + (b : ℚ)) * (1/2) + (a : ℚ) * (1/2))).toNat = a + b / 2 := by
    intro a b
    have hq : ((a : ℚ) + (b : ℚ)) * (1/2) + (a : ℚ) * (1/2)
        = ((2 * a + b : ℕ) : ℚ) / ((2 : ℕ) : ℚ) := by
      push_cast; ring
    rw [pyInt, hq, if_neg (not_lt.mpr (by positivity))]
    rw [Int.floor_toNat, Nat.floor_div_nat, Nat.floor_natCast]
    omega
  unfold mergeStat
  rw [key, key]

/-- Shared key used by the concrete merge scenarios. -/
def kA : EngKey := ("A", 0, 0, 0)

/-- Ledger holding `wins=8, trials=10` at the shared key. -/
def ledgerX : Knowledge := [(kA, ⟨8, 10⟩)]

/-- Ledger holding `wins=2, trials=10` at the shared key. -/
def ledgerY : Knowledge := [(kA, ⟨2, 10⟩)]

theorem ledgerX_lookup : alookup kA ledgerX = some ⟨8, 10⟩ := by
  simp [alookup, ledgerX]

theorem ledgerY_lookup : alookup kA ledgerY = some ⟨2, 10⟩ := by
  simp [alookup, ledgerY]

theorem ledgerX_nodup : (ledgerX.map Prod.fst).Nodup := by simp [ledgerX]

theorem ledgerY_nodup : (ledgerY.map Prod.fst).Nodup := by simp [ledgerY]

theorem mergeXY_lookup : alookup kA (merge_knowledge ledgerX ledgerY) = some ⟨9, 15⟩ := by
  have h := merge_knowledge_alookup ledgerY ledgerX kA ⟨8, 10⟩ ⟨2, 10⟩
    ledgerY_nodup ledgerX_lookup ledgerY_lookup
  rw [mergeStat_eq] at h
  norm_num at h
  exact h

theorem mergeYX_lookup : alookup kA (merge_knowledge ledgerY ledgerX) = some ⟨6, 15⟩ := by
  have h := merge_knowledge_alookup ledgerX ledgerY kA ⟨2, 10⟩ ⟨8, 10⟩
    ledgerX_nodup ledgerY_lookup ledgerX_lookup
  rw [mergeStat_eq] at h
  norm_num at h
  exact h

/-- C3 counterexample: `merge_knowledge` is not commutative and does not blend
with equal weight.  Merging `ledgerY` into `ledgerX` yields `(9, 15)` at the
shared key, the reverse merge yields `(6, 15)`, and neither is the equal
weight blend `(5, 10)`. -/
theorem c3_merge_counterexample :
    alookup kA (merge_knowledge ledgerX ledgerY) = some ⟨9, 15⟩ ∧
    alookup kA (merge_knowledge ledgerY ledgerX) = some ⟨6, 15⟩ ∧
    alookup kA (merge_knowledge ledgerX ledgerY)
      ≠ alookup kA (merge_knowledge ledgerY ledgerX) ∧
    (⟨9, 15⟩ : Stat) ≠ ⟨(8 + 2) / 2, (10 + 10) / 2⟩ := by
  refine ⟨mergeXY_lookup, mergeYX_lookup, ?_, by decide⟩
  rw [mergeXY_lookup, mergeYX_lookup]
  decide

/-- C3 as amended: at every key present in both ledgers, `merge_knowledge`
blends asymmetrically -- the local entry keeps full weight and the remote
entry contributes half of each counter (truncated), so the two merge orders
need not agree. -/
theorem c3_merge_shared_key (l₁ l₂ : Knowledge) (k : EngKey) (e₁ e₂ : Stat)
    (hnd : (l₂.map Prod.fst).Nodup)
    (h₁ : alookup k l₁ = some e₁) (h₂ : alookup k l₂ = some e₂) :
    alookup k (merge_knowledge l₁ l₂)
      = some ⟨e₁.win + e₂.win / 2, e₁.trials + e₂.trials / 2⟩ := by
  rw [merge_knowledge_alookup l₂ l₁ k e₁ e₂ hnd h₁ h₂, mergeStat_eq]

/-- Instantiation of the amended C3 theorem on the concrete ledgers. -/
theorem c3_merge_shared_key_witness :
    alookup kA (merge_knowledge ledgerX ledgerY) = some ⟨8 + 2 / 2, 10 + 10 / 2⟩ :=
  c3_merge_shared_key ledgerX ledgerY kA ⟨8, 10⟩ ⟨2, 10⟩
    ledgerY_nodup ledgerX_lookup ledgerY_lookup

/-- C9 counterexample: `merge_knowledge` takes no merge id and a repeated
merge of the same remote ledger is not ignored -- it blends again and moves
the entry from `(9, 15)` to `(10, 20)`. -/
theorem c9_replay_counterexample :
    alookup kA (merge_knowledge (merge_knowledge ledgerX ledgerY) ledgerY) = some ⟨10, 20⟩ ∧
    alookup kA (merge_knowledge ledgerX ledgerY) = some ⟨9, 15⟩ ∧
    alookup kA (merge_knowledge (merge_knowledge ledgerX ledgerY) ledgerY)
      ≠ alookup kA (merge_knowledge ledgerX ledgerY) := by
  have h := merge_knowledge_alookup ledgerY (merge_knowledge ledgerX ledgerY) kA ⟨9, 15⟩ ⟨2, 10⟩
    ledgerY_nodup mergeXY_lookup ledgerY_lookup
  rw [mergeStat_eq] at h
  norm_num at h
  refine ⟨h, mergeXY_lookup, ?_⟩
  rw [h, mergeXY_lookup]
  decide

/-- C9 as amended: merging the same remote ledger twice always changes a
shared entry again whenever the remote entry has at least two trials, so the
code offers no replay protection. -/
theorem c9_no_replay_guard (l₁ l₂ : Knowledge) (k : EngKey) (e₁ e₂ : Stat)
    (hnd : (l₂.map Prod.fst).Nodup)
    (h₁ : alookup k l₁ = some e₁) (h₂ : alookup k l₂ = some e₂)
    (ht : 2 ≤ e₂.trials) :
    alookup k (merge_knowledge (merge_knowledge l₁ l₂) l₂)
      ≠ alookup k (merge_knowledge l₁ l₂) := by
  have hm₁ : alookup k (merge_knowledge l₁ l₂) = some (mergeStat e₁ e₂) :=
    merge_knowledge_alookup l₂ l₁ k e₁ e₂ hnd h₁ h₂
  have hm₂ : alookup k (merge_knowledge (merge_knowledge l₁ l₂) l₂)
      = some (mergeStat (mergeStat e₁ e₂) e₂) :=
    merge_knowledge_alookup l₂ (merge_knowledge l₁ l₂) k (mergeStat e₁ e₂) e₂ hnd hm₁ h₂
  rw [hm₁, hm₂]
  simp only [mergeStat_eq, ne_eq, Option.some.injEq, Stat.mk.injEq]
  omega

/-- Instantiation of the amended C9 theorem on the concrete ledgers. -/
theorem c9_no_replay_guard_witness :
    alookup kA (merge_knowledge (merge_knowledge ledgerX ledgerY) ledgerY)
      ≠ alookup kA (merge_knowledge ledgerX ledgerY) :=
  c9_no_replay_guard ledgerX ledgerY kA ⟨8, 10⟩ ⟨2, 10⟩
    ledgerY_nodup ledgerX_lookup ledgerY_lookup (by decide)

/-- Environment readings given to `MetaReflection.suggest` and
`MetaReflection.update`, the item list of the Python `env` dict. -/
abbrev Env := List (String × ℚ)

/-- Python `env.get(name, 0)`. -/
def envGet (env : Env) (name : String) : ℚ := (alookup name env).getD 0

/-- Candidate collection in `MetaReflection.suggest`: every knowledge entry
within the 0.2 per-coordinate tolerance of the quantised readings and with
more than 3 trials contributes the pair `(win / max(1, trials), engine)`. -/
def suggestCandidates (knowledge : Knowledge) (noise pressure volume : ℚ) :
    List (ℚ × String) :=
  knowledge.filterMap fun kv =>
    match kv with
    | ((engine, n, p, v), st) =>
      if |n - noise| ≤ 2/10 ∧ |p - pressure| ≤ 2/10 ∧ |v - volume| ≤ 2/10 ∧ 3 < st.trials then
        some ((st.win : ℚ) / max 1 (st.trials : ℚ), engine)
      else none

/-- Python `max(candidates, key=lambda x: x[0])`: a fold that replaces the
current maximum only on a strictly greater key, so the first maximal element
wins ties. -/
def pyMaxFst (c : ℚ × String) (cs : List (ℚ × String)) : ℚ × String :=
  cs.foldl (fun best x => if best.1 < x.1 then x else best) c

/-- `MetaReflection.suggest(env)`: quantise the readings, collect candidates,
then explore with probability `curiosity` (`random.choice` is modelled by the
arbitrary index `pick`) or exploit with `max` on the effectiveness.  Returns
`none` when no candidate qualifies. -/
def suggest (knowledge : Knowledge) (curiosity : ℚ) (env : Env) (rand : ℚ) (pick : ℕ) :
    Option String :=
  match suggestCandidates knowledge (round1 (envGet env "noise"))
      (round1 (envGet env "pressure")) (round1 (envGet env "volume")) with
  | [] => none
  | c :: cs =>
    if rand < curiosity then some (((c :: cs).getD (pick % (cs.length + 1)) c).2)
    else some (pyMaxFst c cs).2

theorem pyMaxFst_mem : ∀ (cs : List (ℚ × String)) (c : ℚ × String), pyMaxFst c cs ∈ c :: cs := by
  intro cs
  induction cs with
  | nil => intro c; simp [pyMaxFst]
  | cons y t ih =>
    intro c
    have hstep : pyMaxFst c (y :: t) = pyMaxFst (if c.1 < y.1 then y else c) t := rfl
    rw [hstep]
    rcases List.mem_cons.mp (ih (if c.1 < y.1 then y else c)) with h | h
    · rw [h]
      by_cases hc : c.1 < y.1
      · simp [hc]
      · simp [hc]
    · exact List.mem_cons_of_mem _ (List.mem_cons_of_mem _ h)

theorem le_pyMaxFst : ∀ (cs : List (ℚ × String)) (c : ℚ × String),
    ∀ x ∈ c :: cs, x.1 ≤ (pyMaxFst c cs).1 := by
  intro cs
  induction cs with
  | nil =>
    intro c x hx
    rw [List.mem_singleton.mp hx]
    exact le_refl _
  | cons y t ih =>
    intro c x hx
    have hstep : pyMaxFst c (y :: t) = pyMaxFst (if c.1 < y.1 then y else c) t := rfl
    rw [hstep]
    have hhead : ∀ z : ℚ × String, z = c ∨ z = y →
        z.1 ≤ (pyMaxFst (if c.1 < y.1 then y else c) t).1 := by
      intro z hz
      have hz1 : z.1 ≤ (if c.1 < y.1 then y else c).1 := by
        by_cases hc : c.1 < y.1
        · rcases hz with rfl | rfl
          · simp [hc]; exact le_of_lt hc
          · simp [hc]
        · rcases hz with rfl | rfl
          · simp [hc]
          · simp [hc]; exact not_lt.mp hc
      exact le_trans hz1 (ih (if c.1 < y.1 then y else c) _ (List.mem_cons_self _ _))
    rcases List.mem_cons.mp hx with rfl | hx1
    · exact hhead x (Or.inl rfl)
    · rcases List.mem_cons.mp hx1 with rfl | hx2
      · exact hhead x (Or.inr rfl)
      · exact ih (if c.1 < y.1 then y else c) x (List.mem_cons_of_mem _ hx2)

/-- Query readings used by the `best_for` scenarios: noise, pressure and
volume all zero. -/
def envC : Env := [("noise", 0), ("pressure", 0), ("volume", 0)]

/-- Ledger of the C5 scenario: `(A, C): wins=8, trials=10` and
`(B, C): wins=2, trials=10`. -/
def knowledgeAB : Knowledge := [(("A", 0, 0, 0), ⟨8, 10⟩), (("B", 0, 0, 0), ⟨2, 10⟩)]

/-- Ledger with a tied effectiveness: `(A, C): 4/5` before `(B, C): 8/10`. -/
def knowledgeTie : Knowledge := [(("A", 0, 0, 0), ⟨4, 5⟩), (("B", 0, 0, 0), ⟨8, 10⟩)]

/-- Evaluation rule for `round1` away from a rounding tie: if `10 * x` lies
within `[n, n + 1/2)` then `round1 x = n / 10`. -/
theorem round1_eval (x : ℚ) (n : ℤ) (h1 : (n : ℚ) ≤ 10 * x) (h2 : 10 * x - n < 1/2) :
    round1 x = (n : ℚ) / 10 := by
  have hfl : ⌊10 * x⌋ = n := by
    apply Int.floor_eq_iff.mpr
    constructor
    · exact h1
    · linarith
  have hfr : Int.fract (10 * x) < 1/2 := by
    unfold Int.fract
    rw [hfl]
    linarith
  unfold round1 roundHalfEven
  rw [if_pos hfr, hfl]

theorem round1_zero : round1 0 = 0 := by
  rw [round1_eval 0 0 (by norm_num) (by norm_num)]
  norm_num

theorem candidatesAB :
    suggestCandidates knowledgeAB (round1 (envGet envC "noise"))
      (round1 (envGet envC "pressure")) (round1 (envGet envC "volume"))
      = [(4/5, "A"), (1/5, "B")] := by
  have hm10 : (1 : ℚ) ⊔ (10 : ℚ) = 10 := max_eq_right (by norm_num)
  norm_num [suggestCandidates, knowledgeAB, envGet, envC, alookup, round1_zero, hm10,
    List.filterMap_cons, List.filterMap_nil]

theorem candidatesTie :
    suggestCandidates knowledgeTie (round1 (envGet envC "noise"))
      (round1 (envGet envC "pressure")) (round1 (envGet envC "volume"))
      = [(4/5, "A"), (4/5, "B")] := by
  have hm10 : (1 : ℚ) ⊔ (10 : ℚ) = 10 := max_eq_right (by norm_num)
  have hm5 : (1 : ℚ) ⊔ (5 : ℚ) = 5 := max_eq_right (by norm_num)
  norm_num [suggestCandidates, knowledgeTie, envGet, envC, alookup, round1_zero, hm10, hm5,
    List.filterMap_cons, List.filterMap_nil]

/-- C5 counterexample to the tie-breaking clause: with two qualifying
candidates of equal effectiveness `4/5` where `A` has 5 trials and `B` has 10,
exploitation returns `A` (the first inserted), not the candidate with the
most trials. -/
theorem c5_tie_counterexample :
    suggest knowledgeTie 0 envC 0 0 = some "A" ∧
    (4 : ℚ) / max 1 (5 : ℚ) = (8 : ℚ) / max 1 (10 : ℚ) ∧
    (5 : ℕ) < 10 ∧
    suggest knowledgeTie 0 envC 0 0 ≠ some "B" := by
  have hs : suggest knowledgeTie 0 envC 0 0 = some "A" := by
    unfold suggest
    rw [candidatesTie]
    norm_num [pyMaxFst]
  refine ⟨hs, by norm_num, by norm_num, ?_⟩
  rw [hs]
  simp

/-- C5 as amended: with exploration rate zero, `suggest` returns the engine
chosen by Python `max` over the qualifying candidates -- a candidate of
maximal `win / max(1, trials)` effectiveness, ties broken by insertion order
(first wins), not by most trials; in particular the 8/10-versus-2/10 scenario
returns `A`. -/
theorem c5_best_for (knowledge : Knowledge) (env : Env) (rand : ℚ) (pick : ℕ)
    (hr : 0 ≤ rand) (c : ℚ × String) (cs : List (ℚ × String))
    (hc : suggestCandidates knowledge (round1 (envGet env "noise"))
      (round1 (envGet env "pressure")) (round1 (envGet env "volume")) = c :: cs) :
    suggest knowledge 0 env rand pick = some (pyMaxFst c cs).2 ∧
    pyMaxFst c cs ∈ c :: cs ∧
    (∀ x ∈ c :: cs, x.1 ≤ (pyMaxFst c cs).1) ∧
    suggest knowledgeAB 0 envC rand pick = some "A" := by
  have hnr : ¬ (rand < 0) := not_lt.mpr hr
  refine ⟨?_, pyMaxFst_mem cs c, le_pyMaxFst cs c, ?_⟩
  · unfold suggest
    rw [hc]
    simp [hnr]
  · unfold suggest
    rw [candidatesAB]
    simp only [hnr, if_false]
    norm_num [pyMaxFst]

/-- Instantiation of the amended C5 theorem on the scenario ledger. -/
theorem c5_best_for_witness : suggest knowledgeAB 0 envC 0 0 = some "A" :=
  (c5_best_for knowledgeAB envC 0 0 (le_refl 0) (4/5, "A") [(1/5, "B")] candidatesAB).2.2.2

/-- Context fingerprint: the quantised `(noise, pressure, volume)` triple as
built identically in `MetaReflection.update` (key construction) and
`MetaReflection.suggest` (query construction), modelled as a pure function. -/
def fingerprint (env : Env) : ℚ × ℚ × ℚ :=
  (round1 (envGet env "noise"), round1 (envGet env "pressure"), round1 (envGet env "volume"))

theorem alookup_perm {α β : Type} [DecidableEq α] :
    ∀ {l₁ l₂ : List (α × β)}, l₁.Perm l₂ → (l₁.map Prod.fst).Nodup →
      ∀ k, alookup k l₁ = alookup k l₂ := by
  intro l₁ l₂ hp
  induction hp with
  | nil => intro _ _; rfl
  | cons x p ih =>
    intro hnd k
    have hnd1 : ∀ t, ((x :: t).map Prod.fst).Nodup → (t.map Prod.fst).Nodup := by
      intro t h
      simpa using (List.nodup_cons.mp (by simpa using h)).2
    by_cases hx : x.1 = k
    · simp [alookup, hx]
    · simp [alookup, hx, ih (hnd1 _ hnd) k]
  | swap x y l =>
    intro hnd k
    have h0 : (y.1 :: x.1 :: l.map Prod.fst).Nodup := hnd
    have hyx : y.1 ≠ x.1 := by
      intro h
      exact (List.nodup_cons.mp h0).1 (by simp [h])
    by_cases h1 : y.1 = k
    · have h2 : x.1 ≠ k := fun h => hyx (h1.trans h.symm)
      simp [alookup, h1, h2]
    · by_cases h2 : x.1 = k <;> simp [alookup, h1, h2]
  | trans p₁ p₂ ih₁ ih₂ =>
    intro hnd k
    have hnd₂ := ((p₁.map Prod.fst).nodup_iff).mp hnd
    rw [ih₁ hnd k, ih₂ hnd₂ k]

/-- C6: the context fingerprint is deterministic and permutation invariant.
If `env₁` is a reordering of `envMid` (readings are named, so a dict built
from either has the same entries) and `envMid` agrees with `env₂` on every
reading after quantisation to the 0.1 resolution, then the two fingerprints
are identical.  The function is pure, so repeated calls agree and nothing is
mutated. -/
theorem c6_fingerprint_deterministic (env₁ envMid env₂ : Env)
    (hperm : env₁.Perm envMid) (hnd : (env₁.map Prod.fst).Nodup)
    (hq : ∀ name ∈ (["noise", "pressure", "volume"] : List String),
      round1 (envGet envMid name) = round1 (envGet env₂ name)) :
    fingerprint env₁ = fingerprint env₂ := by
  have hmid : fingerprint env₁ = fingerprint envMid := by
    unfold fingerprint envGet
    rw [alookup_perm hperm hnd "noise", alookup_perm hperm hnd "pressure",
      alookup_perm hperm hnd "volume"]
  rw [hmid]
  unfold fingerprint
  rw [hq "noise" (by simp), hq "pressure" (by simp), hq "volume" (by simp)]

/-- Instantiation of the C6 theorem: the readings `{pressure: 2, noise: 1}`
supplied in the opposite order, with sub-resolution noise `1.04` and `2.04`,
fingerprint identically. -/
theorem c6_fingerprint_deterministic_witness :
    fingerprint [("pressure", 2), ("noise", 1)]
      = fingerprint [("noise", 26/25), ("pressure", 51/25)] := by
  have h := c6_fingerprint_deterministic
    [("pressure", 2), ("noise", 1)]
    [("noise", 1), ("pressure", 2)]
    [("noise", 26/25), ("pressure", 51/25)]
    (List.Perm.swap ("noise", (1 : ℚ)) ("pressure", (2 : ℚ)) [])
    (by simp)
    ?_
  · exact h
  · intro name hname
    simp only [List.mem_cons, List.not_mem_nil, or_false] at hname
    rcases hname with rfl | rfl | rfl
    · have e1 : envGet [("noise", (1 : ℚ)), ("pressure", 2)] "noise" = 1 := by
        simp [envGet, alookup]
      have e2 : envGet [("noise", (26 : ℚ)/25), ("pressure", 51/25)] "noise" = 26/25 := by
        simp [envGet, alookup]
      rw [e1, e2, round1_eval 1 10 (by norm_num) (by norm_num),
        round1_eval (26/25) 10 (by norm_num) (by norm_num)]
    · have e1 : envGet [("noise", (1 : ℚ)), ("pressure", 2)] "pressure" = 2 := by
        simp [envGet, alookup]
      have e2 : envGet [("noise", (26 : ℚ)/25), ("pressure", 51/25)] "pressure" = 51/25 := by
        simp [envGet, alookup]
      rw [e1, e2, round1_eval 2 20 (by norm_num) (by norm_num),
        round1_eval (51/25) 20 (by norm_num) (by norm_num)]
    · have e1 : envGet [("noise", (1 : ℚ)), ("pressure", 2)] "volume" = 0 := by
        simp [envGet, alookup]
      have e2 : envGet [("noise", (26 : ℚ)/25), ("pressure", 51/25)] "volume" = 0 := by
        simp [envGet, alookup]
      rw [e1, e2]

/-- `GieMind.get_effectiveness(engine_name)`: `win / trials` unless the trial
count is zero, in which case `0.0`.  The dict access is surfaced as an
`Option` (Python raises `KeyError` for a name outside `stats`). -/
def get_effectiveness (stats : List (String × Stat)) (name : String) : Option ℚ :=
  (alookup name stats).map fun st => if st.trials = 0 then 0 else (st.win : ℚ) / (st.trials : ℚ)

/-- Registration step of `StrategyEvolver.evolve` (and of
`dynamic_import_new_engines`): `self.stats[new_key] = {"win": 0, "trials": 0}`. -/
def registerEvolvedStats (stats : List (String × Stat)) (new_key : String) :
    List (String × Stat) :=
  dictSet stats new_key ⟨0, 0⟩

/-- C10: `get_effectiveness` is total over the stats table -- for a present
name it returns `win / trials` when the trial count is nonzero and `0.0` when
it is zero; in particular the zero-trial entries registered by the evolver
yield `0.0` rather than a division error. -/
theorem c10_effectiveness_total (stats : List (String × Stat)) (name new_key : String)
    (st : Stat) :
    get_effectiveness (registerEvolvedStats stats new_key) new_key = some 0 ∧
    (alookup name stats = some st → st.trials = 0 → get_effectiveness stats name = some 0) ∧
    (alookup name stats = some st → st.trials ≠ 0 →
      get_effectiveness stats name = some ((st.win : ℚ) / (st.trials : ℚ))) := by
  refine ⟨?_, ?_, ?_⟩
  · unfold registerEvolvedStats get_effectiveness
    rw [alookup_dictSet_self]
    simp
  · intro h h0
    unfold get_effectiveness
    rw [h]
    simp [h0]
  · intro h h0
    unfold get_effectiveness
    rw [h]
    simp [h0]

/-- Instantiation of the C10 theorem: a freshly evolved engine scores `0.0`
and an `(3, 4)` entry scores `3/4`. -/
theorem c10_effectiveness_total_witness :
    get_effectiveness (registerEvolvedStats [] "OstroznyEngine_1234") "OstroznyEngine_1234"
      = some 0 ∧
    get_effectiveness [("RyzykantEngine", ⟨3, 4⟩)] "RyzykantEngine" = some ((3 : ℚ) / 4) :=
  ⟨(c10_effectiveness_total [] "OstroznyEngine_1234" "OstroznyEngine_1234" ⟨0, 0⟩).1,
   (c10_effectiveness_total [("RyzykantEngine", ⟨3, 4⟩)] "RyzykantEngine" "x" ⟨3, 4⟩).2.2
     (by simp [alookup]) (by norm_num)⟩

/-- Mutable motivational scalars of `GieMind` touched by
`update_internal_state`. -/
structure MindMood where
  hunger : ℚ
  satisfaction : ℚ
  curiosity : ℚ
deriving DecidableEq

/-- `GieMind.update_internal_state(reward)`: the mood update (increments
`0.1`, `0.05`, `0.02`, `0.01`, all clamped to `[0, 1]`) followed by the
auto-evolution check.  In this code base the check always raises: when
`satisfaction > 0.8` (the comparison quirkily uses `hunger_threshold`) the
`evolver` property constructs `StrategyEvolver()` without its required
`engines`/`stats` arguments (`TypeError`); otherwise the undefined attribute
`curiosity_threshold` is read (`AttributeError`).  The string carries the
exception the call raises after the field updates are applied. -/
def update_internal_state (m : MindMood) (reward : ℚ) : MindMood × String :=
  let m1 :=
    if 1/2 < reward then
      { m with satisfaction := min 1 (m.satisfaction + 1/10), hunger := max 0 (m.hunger - 1/10) }
    else if reward < 1/5 then
      { m with curiosity := min 1 (m.curiosity + 1/20), hunger := min 1 (m.hunger + 1/50) }
    else
      { m with satisfaction := max 0 (m.satisfaction - 1/10),
               curiosity := min 1 (m.curiosity + 1/100) }
  if 8/10 < m1.satisfaction then
    (m1, "TypeError: StrategyEvolver() missing required engines and stats arguments")
  else
    (m1, "AttributeError: GieMind object has no attribute curiosity_threshold")

/-- `GieMind.receive_feedback(engine, success)`: increment the win/trial
counters for the engine class name in place, then run
`update_internal_state`.  The trailing check of that call raises, but the
dict and attribute mutations already applied persist on the Python object;
the returned string is the pending exception (the later `save_stats` line is
unreachable). -/
def receive_feedback (stats : List (String × Stat)) (m : MindMood) (name : String)
    (success : Bool) : (List (String × Stat) × MindMood) × String :=
  ((dictUpd stats name fun st => ⟨st.win + (if success then 1 else 0), st.trials + 1⟩,
    (update_internal_state m (if success then 1 else 0)).1),
   (update_internal_state m (if success then 1 else 0)).2)

/-- State of the stats table and mood after `n` successful
`receive_feedback` calls for the same engine. -/
def recordSuccessIter (stats : List (String × Stat)) (m : MindMood) (name : String) :
    ℕ → List (String × Stat) × MindMood
  | 0 => (stats, m)
  | n + 1 =>
    (receive_feedback (recordSuccessIter stats m name n).1
      (recordSuccessIter stats m name n).2 name true).1

/-- The observable `wins/trials` ratio (via `get_effectiveness`) after `n`
successful recordings. -/
def effAfter (stats : List (String × Stat)) (m : MindMood) (name : String) (n : ℕ) : ℚ :=
  (get_effectiveness (recordSuccessIter stats m name n).1 name).getD 0

theorem recordSuccess_lookup (stats : List (String × Stat)) (m : MindMood) (name : String)
    (w t : ℕ) (h : alookup name stats = some ⟨w, t⟩) :
    ∀ n, alookup name (recordSuccessIter stats m name n).1 = some ⟨w + n, t + n⟩ := by
  intro n
  induction n with
  | zero => simpa using h
  | succ n ih =>
    show alookup name (receive_feedback _ _ name true).1.1 = _
    unfold receive_feedback
    rw [alookup_dictUpd_self, ih]
    rfl

theorem effAfter_eq (stats : List (String × Stat)) (m : MindMood) (name : String)
    (w t : ℕ) (h : alookup name stats = some ⟨w, t⟩) :
    ∀ n, effAfter stats m name n
      = if t + n = 0 then 0 else ((w + n : ℕ) : ℚ) / ((t + n : ℕ) : ℚ) := by
  intro n
  unfold effAfter get_effectiveness
  rw [recordSuccess_lookup stats m name w t h n]
  simp

/-- C4: recording `n` consecutive successes drives the stored `wins/trials`
ratio monotonically upward (strictly while it is below 1) toward `1.0` --
it never exceeds 1 and eventually gets within any positive `ε` of 1.  The
stats key of this code is the engine class name alone, so the statement
holds uniformly in the context. -/
theorem c4_record_success_monotone (stats : List (String × Stat)) (m : MindMood)
    (name : String) (w t : ℕ) (h : alookup name stats = some ⟨w, t⟩) (hwt : w ≤ t) :
    (∀ n, effAfter stats m name n ≤ effAfter stats m name (n + 1)) ∧
    (w < t → ∀ n, effAfter stats m name n < effAfter stats m name (n + 1)) ∧
    (∀ n, effAfter stats m name n ≤ 1) ∧
    (∀ ε : ℚ, 0 < ε → ∃ N, ∀ n, N ≤ n → 1 - effAfter stats m name n < ε) := by
  have key := effAfter_eq stats m name w t h
  have hW : (0 : ℚ) ≤ (w : ℚ) := by positivity
  have hWT : (w : ℚ) ≤ (t : ℚ) := by exact_mod_cast hwt
  refine ⟨?_, ?_, ?_, ?_⟩
  · intro n
    rw [key n, key (n + 1)]
    by_cases h0 : t + n = 0
    · have ht0 : t = 0 := by omega
      have hn0 : n = 0 := by omega
      have hw0 : w = 0 := by omega
      subst ht0; subst hn0; subst hw0
      norm_num
    · have h1 : t + (n + 1) ≠ 0 := by omega
      rw [if_neg h0, if_neg h1]
      have hd0 : (0 : ℚ) < ((t + n : ℕ) : ℚ) := by
        exact_mod_cast Nat.pos_of_ne_zero h0
      have hd1 : (0 : ℚ) < ((t + (n + 1) : ℕ) : ℚ) := by
        exact_mod_cast Nat.pos_of_ne_zero h1
      rw [div_le_div_iff₀ hd0 hd1]
      push_cast
      nlinarith [hWT]
  · intro hlt n
    have hWTs : (w : ℚ) < (t : ℚ) := by exact_mod_cast hlt
    rw [key n, key (n + 1)]
    by_cases h0 : t + n = 0
    · exact absurd hlt (by omega)
    · have h1 : t + (n + 1) ≠ 0 := by omega
      rw [if_neg h0, if_neg h1]
      have hd0 : (0 : ℚ) < ((t + n : ℕ) : ℚ) := by
        exact_mod_cast Nat.pos_of_ne_zero h0
      have hd1 : (0 : ℚ) < ((t + (n + 1) : ℕ) : ℚ) := by
        exact_mod_cast Nat.pos_of_ne_zero h1
      rw [div_lt_div_iff₀ hd0 hd1]
      push_cast
      nlinarith [hWTs]
  · intro n
    rw [key n]
    by_cases h0 : t + n = 0
    · rw [if_pos h0]; norm_num
    · rw [if_neg h0]
      have hd0 : (0 : ℚ) < ((t + n : ℕ) : ℚ) := by
        exact_mod_cast Nat.pos_of_ne_zero h0
      rw [div_le_one hd0]
      push_cast
      linarith
  · intro ε hε
    refine ⟨⌈(t : ℚ) / ε⌉₊ + 1, ?_⟩
    intro n hn
    have h0 : t + n ≠ 0 := by omega
    rw [key n, if_neg h0]
    have hd0 : (0 : ℚ) < ((t + n : ℕ) : ℚ) := by
      exact_mod_cast Nat.pos_of_ne_zero h0
    have hceil : ((t : ℚ) / ε) < (n : ℚ) := by
      have h1 : (t : ℚ) / ε ≤ (⌈(t : ℚ) / ε⌉₊ : ℚ) := Nat.le_ceil _
      have h2 : ((⌈(t : ℚ) / ε⌉₊ + 1 : ℕ) : ℚ) ≤ (n : ℚ) := by exact_mod_cast hn
      push_cast at h2
      linarith
    have htn : (t : ℚ) < ε * (n : ℚ) := by
      rw [div_lt_iff₀ hε] at hceil
      linarith
    have hexp : ((w + n : ℕ) : ℚ) / ((t + n : ℕ) : ℚ)
        = ((w : ℚ) + (n : ℚ)) / ((t : ℚ) + (n : ℚ)) := by push_cast; ring_nf
    rw [hexp]
    have hdq : (0 : ℚ) < (t : ℚ) + (n : ℚ) := by push_cast at hd0; linarith
    have hfrac : 1 - ((w : ℚ) + (n : ℚ)) / ((t : ℚ) + (n : ℚ))
        = ((t : ℚ) - (w : ℚ)) / ((t : ℚ) + (n : ℚ)) := by
      field_simp
    rw [hfrac, div_lt_iff₀ hdq]
    have hmul : ε * ((t : ℚ) + (n : ℚ)) = ε * (t : ℚ) + ε * (n : ℚ) := by ring
    have hT0 : (0 : ℚ) ≤ (t : ℚ) := by positivity
    have hTe : (0 : ℚ) ≤ ε * (t : ℚ) := mul_nonneg hε.le hT0
    rw [hmul]
    linarith

/-- Initial stats table of `GieMind` for a single engine: `win = 0`,
`trials = 1`, the shape written by `GieMind.__init__`. -/
def statsInit : List (String × Stat) := [("OstroznyEngine", ⟨0, 1⟩)]

/-- Initial mood of `GieMind`: `hunger = 1.0`, `satisfaction = 0.1`,
`curiosity = 0.8`. -/
def moodInit : MindMood := ⟨1, 1/10, 8/10⟩

/-- Instantiation of the C4 theorem on the initial `GieMind` state. -/
theorem c4_record_success_monotone_witness :
    effAfter statsInit moodInit "OstroznyEngine" 0
        ≤ effAfter statsInit moodInit "OstroznyEngine" 1 ∧
    ∃ N, ∀ n, N ≤ n → 1 - effAfter statsInit moodInit "OstroznyEngine" n < 1/2 := by
  have h := c4_record_success_monotone statsInit moodInit "OstroznyEngine" 0 1
    (by simp [alookup, statsInit]) (by norm_num)
  exact ⟨h.1 0, h.2.2.2 (1/2) (by norm_num)⟩

/-- State of one `GieMind` instance, restricted to the fields its control
loop and the guardian adapter methods read or write: the meta-reflection
knowledge and curiosity (exploration rate), the stats table, the engine
class names, the mood scalars and the logger output. -/
structure Mind where
  knowledge : Knowledge
  metaCuriosity : ℚ
  stats : List (String × Stat)
  engines : List String
  mood : MindMood
  log : List String
deriving DecidableEq

/-- `GieMind.reduce_exposure` (guardian adapter): logs and nothing else. -/
def reduce_exposure (m : Mind) : Mind :=
  { m with log := m.log ++ ["[META GUARDIAN] REDUCE EXPOSURE"] }

/-- `GieMind.limit_open_trades`: logs and nothing else. -/
def limit_open_trades (m : Mind) : Mind :=
  { m with log := m.log ++ ["[META GUARDIAN] LIMIT OPEN TRADES"] }

/-- `GieMind.close_riskiest_grid_positions`: logs and nothing else. -/
def close_riskiest_grid_positions (m : Mind) : Mind :=
  { m with log := m.log ++ ["[META GUARDIAN] CLOSE GRID POSITIONS"] }

/-- `GieMind.emergency_margin_action`: logs and nothing else. -/
def emergency_margin_action (m : Mind) : Mind :=
  { m with log := m.log ++ ["[META GUARDIAN] EMERGENCY MARGIN ACTION"] }

/-- `GieMind.adapt_grid_on_trend_risk`: logs and nothing else. -/
def adapt_grid_on_trend_risk (m : Mind) : Mind :=
  { m with log := m.log ++ ["[META GUARDIAN] ADAPT GRID ON TREND RISK"] }

/-- `GieMind.get_total_capital`: hardcoded portfolio figure. -/
def get_total_capital : ℚ := 100000

/-- `GieMind.get_equity`: hardcoded portfolio figure. -/
def get_equity : ℚ := 98765

/-- `GieMind.get_open_trades` returns the empty list; only its length is
observed by the guardian. -/
def get_open_trades_count : ℕ := 0

/-- `GieMind.get_margin_level`: `equity / (equity / 5000)`. -/
def get_margin_level : ℚ := get_equity / (get_equity / 5000)

/-- Thresholds of the `MetaGuardian` fallback configuration that the checks
against the `GieMind` adapters consult. -/
structure GuardianConfig where
  max_drawdown : ℚ
  max_open_trades : ℕ
  max_grid_size : ℕ
  min_equity_margin : ℚ
deriving DecidableEq

/-- Fallback configuration built by `MetaGuardian.load_config` when no
config file exists. -/
def defaultGuardianConfig : GuardianConfig :=
  { max_drawdown := 2/10, max_open_trades := 20, max_grid_size := 7, min_equity_margin := 1/4 }

/-- `MetaGuardian.check_drawdown`: fire `handle_drawdown` (which calls the
log-only `reduce_exposure`) when the drawdown ratio exceeds the limit. -/
def check_drawdown (cfg : GuardianConfig) (m : Mind) : Mind :=
  if cfg.max_drawdown < (get_total_capital - get_equity) / get_total_capital then
    reduce_exposure m
  else m

/-- `MetaGuardian.check_open_trades`: fire `handle_overtrading` (log-only
`limit_open_trades`) when too many positions are open. -/
def check_open_trades (cfg : GuardianConfig) (m : Mind) : Mind :=
  if cfg.max_open_trades < get_open_trades_count then limit_open_trades m else m

/-- `MetaGuardian.check_equity_margin`: fire `handle_margin_risk` (log-only
`emergency_margin_action`) when the margin level is below the floor. -/
def check_equity_margin (cfg : GuardianConfig) (m : Mind) : Mind :=
  if get_margin_level < cfg.min_equity_margin then emergency_margin_action m else m

/-- `MetaGuardian.monitor_all` against the `GieMind` adapters:
`check_grid_risk` and `predict_risk` iterate over the empty grid list and do
nothing, and the snapshot and guardian meta-log writes touch guardian-side
state only, so the mind passes through the three threshold checks. -/
def monitor_all (cfg : GuardianConfig) (m : Mind) : Mind :=
  check_equity_margin cfg (check_open_trades cfg (check_drawdown cfg m))

/-- Python `max(engines, key=effectiveness)` over a nonempty engine list,
with the `KeyError` of a missing stats entry surfaced as `none`; ties keep
the earlier engine. -/
def pyMaxByEff (stats : List (String × Stat)) (e : String) (es : List String) :
    Option String := do
  let k ← get_effectiveness stats e
  let r ← es.foldlM (fun best x => do
      let kx ← get_effectiveness stats x
      pure (if best.2 < kx then (x, kx) else best)) (e, k)
  pure r.1

/-- `GieMind.choose_engine(environment)`: only when `suggest` returns an
engine does it return `max(self.engines, key=effectiveness)`; otherwise it
falls through and returns `None`.  A `none` here makes the caller raise
(`get_effectiveness` on the `"NoneType"` class name is a `KeyError`), as
would `max` over an empty engine list (`ValueError`), so those error paths
are collapsed into `none`. -/
def choose_engine (m : Mind) (env : Env) (rand : ℚ) (pick : ℕ) : Option String :=
  match suggest m.knowledge m.metaCuriosity env rand pick with
  | some _ =>
    match m.engines with
    | [] => none
    | e :: es => pyMaxByEff m.stats e es
  | none => none

/-- One inner-loop iteration of `GieMind.run`: read the environment (the
sensor readings arrive as `env`), choose an engine, draw `success` by
comparing `rsucc` with the chosen engine's effectiveness, and call
`receive_feedback`.  Every path raises -- a `none` choice is a `KeyError`
before any dispatch, and a dispatch ends in `update_internal_state`'s raise
-- so the returned `Bool` records whether an engine was dispatched and fed
back before the pending exception in the `String`. -/
def gie_step (m : Mind) (env : Env) (rand rsucc : ℚ) (pick : ℕ) : Mind × Bool × String :=
  match choose_engine m env rand pick with
  | none => (m, false, "KeyError: NoneType is not a stats key")
  | some e =>
    match get_effectiveness m.stats e with
    | none => (m, false, "KeyError: engine name missing from stats")
    | some eff =>
      ({ m with
          stats := (receive_feedback m.stats m.mood e (decide (rsucc < eff))).1.1,
          mood := (receive_feedback m.stats m.mood e (decide (rsucc < eff))).1.2 },
        true, (receive_feedback m.stats m.mood e (decide (rsucc < eff))).2)

/-- `GieMind.run(self_steps)`: three outer runs of `self_steps` inner
iterations.  Every iteration raises (see `gie_step`), so the call aborts
during its first iteration; with `self_steps = 0` the loops do no work.
Returns the surviving state, the number of engines dispatched and the
pending exception. -/
def gieRun (m : Mind) (env : Env) (rand rsucc : ℚ) (pick : ℕ) (self_steps : ℕ) :
    Mind × ℕ × Option String :=
  if self_steps = 0 then (m, 0, none)
  else
    ((gie_step m env rand rsucc pick).1,
     (if (gie_step m env rand rsucc pick).2.1 then 1 else 0),
     some (gie_step m env rand rsucc pick).2.2)

theorem gie_step_log (m : Mind) (L : List String) (env : Env) (rand rsucc : ℚ) (pick : ℕ) :
    (gie_step { m with log := L } env rand rsucc pick).2
      = (gie_step m env rand rsucc pick).2 := by
  obtain ⟨kn, mc, st, en, mo, lg⟩ := m
  show (gie_step ⟨kn, mc, st, en, mo, L⟩ env rand rsucc pick).2
      = (gie_step ⟨kn, mc, st, en, mo, lg⟩ env rand rsucc pick).2
  unfold gie_step choose_engine
  dsimp only
  cases hs : suggest kn mc env rand pick with
  | none => rfl
  | some e0 =>
    dsimp only
    cases en with
    | nil => rfl
    | cons e es =>
      dsimp only
      cases hp : pyMaxByEff st e es with
      | none => rfl
      | some e1 =>
        dsimp only
        cases hf : get_effectiveness st e1 with
        | none => rfl
        | some eff => rfl

theorem gieRun_log (m : Mind) (L : List String) (env : Env) (rand rsucc : ℚ) (pick : ℕ)
    (n : ℕ) :
    (gieRun { m with log := L } env rand rsucc pick n).2
      = (gieRun m env rand rsucc pick n).2 := by
  unfold gieRun
  by_cases hn : n = 0
  · rw [if_pos hn, if_pos hn]
  · rw [if_neg hn, if_neg hn]
    rw [gie_step_log m L env rand rsucc pick]

theorem monitor_all_log_only (cfg : GuardianConfig) (m : Mind) :
    ∃ L, monitor_all cfg m = { m with log := L } := by
  unfold monitor_all check_equity_margin check_open_trades check_drawdown
    reduce_exposure limit_open_trades emergency_margin_action
  split_ifs <;> exact ⟨_, rfl⟩

/-- Knowledge of the dispatch scenario: a single matching entry with five
wins in five trials. -/
def knowledgeScn : Knowledge := [(("OstroznyEngine", 0, 0, 0), ⟨5, 5⟩)]

/-- A `GieMind` state whose meta reflection recommends `OstroznyEngine` --
exploration off, one engine, stats at five-for-five. -/
def mindScn : Mind :=
  ⟨knowledgeScn, 0, [("OstroznyEngine", ⟨5, 5⟩)], ["OstroznyEngine"], moodInit, []⟩

theorem candidatesScn :
    suggestCandidates knowledgeScn (round1 (envGet envC "noise"))
      (round1 (envGet envC "pressure")) (round1 (envGet envC "volume"))
      = [(1, "OstroznyEngine")] := by
  have hm5 : (1 : ℚ) ⊔ (5 : ℚ) = 5 := max_eq_right (by norm_num)
  norm_num [suggestCandidates, knowledgeScn, envGet, envC, alookup, round1_zero, hm5,
    List.filterMap_cons, List.filterMap_nil]

theorem suggestScn : suggest knowledgeScn 0 envC (1/2) 0 = some "OstroznyEngine" := by
  unfold suggest
  rw [candidatesScn]
  norm_num [pyMaxFst]

theorem effScn : get_effectiveness [("OstroznyEngine", ⟨5, 5⟩)] "OstroznyEngine" = some 1 := by
  norm_num [get_effectiveness, alookup]

theorem chooseScn : choose_engine mindScn envC (1/2) 0 = some "OstroznyEngine" := by
  unfold choose_engine mindScn
  dsimp only
  rw [suggestScn]
  simp [pyMaxByEff, effScn]

theorem stepScn : (gie_step mindScn envC (1/2) (1/2) 0).2.1 = true := by
  unfold gie_step
  rw [chooseScn]
  dsimp only
  rw [show mindScn.stats = [("OstroznyEngine", ⟨5, 5⟩)] from rfl, effScn]

/-- C2 counterexample: immediately after the Guardian's strongest corrective
action (`emergency_margin_action`) the Population Controller still
dispatches -- the next `GieMind.run` cycle performs one dispatch, not zero,
because the code has no `suspended` flag and checks nothing guardian-written
before dispatching. -/
theorem c2_dispatch_counterexample :
    (gieRun (emergency_margin_action mindScn) envC (1/2) (1/2) 0 10).2.1 = 1 ∧
    (1 : ℕ) ≠ 0 := by
  refine ⟨?_, by decide⟩
  have hL : (gieRun (emergency_margin_action mindScn) envC (1/2) (1/2) 0 10).2
      = (gieRun mindScn envC (1/2) (1/2) 0 10).2 :=
    gieRun_log mindScn (mindScn.log ++ ["[META GUARDIAN] EMERGENCY MARGIN ACTION"])
      envC (1/2) (1/2) 0 10
  rw [congrArg Prod.fst hL]
  unfold gieRun
  rw [if_neg (by norm_num)]
  dsimp only
  rw [stepScn]
  rfl

/-- C2 as amended: the code has no `suspended` flag and no dispatch gate.
The Guardian reaches the mind only through the five adapter methods, each of
which appends a log line and changes nothing else; the dispatch count and
pending exception of a run cycle are invariant under any log change, under
each adapter, and under a whole `monitor_all` pass, which leaves every
dispatch-relevant field of the mind unchanged. -/
theorem c2_no_suspension_gate (m : Mind) (L : List String) (cfg : GuardianConfig)
    (env : Env) (rand rsucc : ℚ) (pick : ℕ) (n : ℕ) :
    (gieRun { m with log := L } env rand rsucc pick n).2
      = (gieRun m env rand rsucc pick n).2 ∧
    (gieRun (reduce_exposure m) env rand rsucc pick n).2
      = (gieRun m env rand rsucc pick n).2 ∧
    (gieRun (limit_open_trades m) env rand rsucc pick n).2
      = (gieRun m env rand rsucc pick n).2 ∧
    (gieRun (close_riskiest_grid_positions m) env rand rsucc pick n).2
      = (gieRun m env rand rsucc pick n).2 ∧
    (gieRun (emergency_margin_action m) env rand rsucc pick n).2
      = (gieRun m env rand rsucc pick n).2 ∧
    (gieRun (adapt_grid_on_trend_risk m) env rand rsucc pick n).2
      = (gieRun m env rand rsucc pick n).2 ∧
    (gieRun (monitor_all cfg m) env rand rsucc pick n).2
      = (gieRun m env rand rsucc pick n).2 ∧
    (monitor_all cfg m).knowledge = m.knowledge ∧
    (monitor_all cfg m).metaCuriosity = m.metaCuriosity ∧
    (monitor_all cfg m).stats = m.stats ∧
    (monitor_all cfg m).engines = m.engines ∧
    (monitor_all cfg m).mood = m.mood := by
  obtain ⟨Lm, hLm⟩ := monitor_all_log_only cfg m
  refine ⟨gieRun_log m L env rand rsucc pick n,
    gieRun_log m _ env rand rsucc pick n,
    gieRun_log m _ env rand rsucc pick n,
    gieRun_log m _ env rand rsucc pick n,
    gieRun_log m _ env rand rsucc pick n,
    gieRun_log m _ env rand rsucc pick n,
    ?_, ?_, ?_, ?_, ?_, ?_⟩
  · rw [hLm]
    exact gieRun_log m Lm env rand rsucc pick n
  · rw [hLm]
  · rw [hLm]
  · rw [hLm]
  · rw [hLm]
  · rw [hLm]

/-- Names of the methods the class `GieMind` defines (`gie_mind.py`); the
attribute lookup of any other name on a hive agent raises `AttributeError`.
`GieHive.agents` holds `GieMind` instances only: `GieHive.__init__` and
`add_agent` construct them directly and `clone_agent` is the only other
writer of the list. -/
def gieMindMethods : List String :=
  ["evolver", "log_event", "load_stats", "save_stats", "read_environment",
   "update_internal_state", "auto_evolve", "clone_self", "choose_engine",
   "get_effectiveness", "receive_feedback", "reflect", "run",
   "get_total_capital", "get_equity", "get_open_trades", "get_open_grids",
   "get_margin_level", "reduce_exposure", "limit_open_trades",
   "close_riskiest_grid_positions", "emergency_margin_action",
   "adapt_grid_on_trend_risk", "predict_trend"]

/-- Attribute lookup `agent.<name>` on a `GieMind` hive agent: it succeeds
exactly on the methods the class defines and otherwise raises
`AttributeError`. -/
def gieMindGetattr (name : String) : Except String Unit :=
  if name ∈ gieMindMethods then Except.ok ()
  else Except.error ("AttributeError: GieMind object has no attribute " ++ name)

/-- `GieHive.clone_agent(idx)` (`gie_hive.py` lines 94-98): fetch
`self.agents[idx]` (an `IndexError` outside the range), then call
`agent.clone()`.  `GieMind` defines `clone_self` but no `clone`, so the
attribute lookup raises before any append; the copy that lines 96-97 would
append is abstracted as `cloneFn`, so the embedding commits to nothing about
the unreachable continuation. -/
def clone_agent (cloneFn : Mind → Mind) (idx : ℕ) (agents : List Mind) :
    Except String (List Mind) :=
  match agents.get? idx with
  | none => Except.error "IndexError: list index out of range"
  | some a =>
    match gieMindGetattr "clone" with
    | Except.error e => Except.error e
    | Except.ok _ => Except.ok (agents ++ [cloneFn a])

/-- `GieHive.meta_reflection` (`gie_hive.py` lines 82-92): the first line
evaluates `agent.get_performance_metric()` for each agent.  On an empty hive
the comprehension is empty and line 84 raises `ValueError` at `max([])`; on a
nonempty hive the very first attribute lookup raises `AttributeError`, since
`GieMind` defines no `get_performance_metric`.  The clone-below-20 and
retire-above-5 logic of lines 87-91 sits after the raise and is abstracted as
`evolve`, so the embedding commits to nothing about the unreachable
continuation. -/
def meta_reflection (evolve : List Mind → List Mind) (agents : List Mind) :
    Except String (List Mind) :=
  match agents with
  | [] => Except.error "ValueError: max() arg is an empty sequence"
  | _ :: _ =>
    match gieMindGetattr "get_performance_metric" with
    | Except.error e => Except.error e
    | Except.ok _ => Except.ok (evolve agents)

theorem gieMindGetattr_perf :
    gieMindGetattr "get_performance_metric"
      = Except.error
          "AttributeError: GieMind object has no attribute get_performance_metric" := by
  rfl

theorem gieMindGetattr_clone :
    gieMindGetattr "clone"
      = Except.error "AttributeError: GieMind object has no attribute clone" := by
  rfl

/-- C1: the claimed population-bounds invariant guards dead code -- the
per-cycle evolution step never performs a clone or a retire.  On every
nonempty hive `meta_reflection` raises `AttributeError` at its first line
(`GieMind` has no `get_performance_metric`), whatever the subsequent
clone/retire logic `evolve` would compute, and `clone_agent` at any valid
index raises `AttributeError` at `agent.clone()` (`GieMind` has no `clone`),
whatever copy `cloneFn` would append; neither ever returns a population. -/
theorem c1_meta_reflection_raises (agents : List Mind) (hne : agents ≠ [])
    (evolve : List Mind → List Mind) (cloneFn : Mind → Mind) (idx : ℕ)
    (hidx : idx < agents.length) :
    meta_reflection evolve agents
      = Except.error
          "AttributeError: GieMind object has no attribute get_performance_metric" ∧
    (∀ res, meta_reflection evolve agents ≠ Except.ok res) ∧
    clone_agent cloneFn idx agents
      = Except.error "AttributeError: GieMind object has no attribute clone" ∧
    (∀ res, clone_agent cloneFn idx agents ≠ Except.ok res) := by
  cases agents with
  | nil => exact absurd rfl hne
  | cons a rest =>
    have hm : meta_reflection evolve (a :: rest)
        = Except.error
            "AttributeError: GieMind object has no attribute get_performance_metric" := by
      unfold meta_reflection
      dsimp only
      rw [gieMindGetattr_perf]
    have hc : clone_agent cloneFn idx (a :: rest)
        = Except.error "AttributeError: GieMind object has no attribute clone" := by
      unfold clone_agent
      cases hg : (a :: rest).get? idx with
      | none => exact absurd (List.get?_eq_none.mp hg) (by omega)
      | some x =>
        dsimp only
        rw [gieMindGetattr_clone]
    refine ⟨hm, ?_, hc, ?_⟩
    · intro res h
      rw [hm] at h
      exact Except.noConfusion h
    · intro res h
      rw [hc] at h
      exact Except.noConfusion h

/-- Instantiation of the C1 theorem on a one-agent hive: both calls raise. -/
theorem c1_meta_reflection_raises_witness :
    meta_reflection id [mindScn]
      = Except.error
          "AttributeError: GieMind object has no attribute get_performance_metric" ∧
    clone_agent id 0 [mindScn]
      = Except.error "AttributeError: GieMind object has no attribute clone" := by
  have h := c1_meta_reflection_raises [mindScn] (by simp) id id 0 (by simp)
  exact ⟨h.1, h.2.2.1⟩

/-- `numpy.mean` over the rolling buffer. -/
def npMean (l : List ℚ) : ℚ := l.sum / (l.length : ℚ)

/-- `numpy.std` squared: the population variance of the buffer. -/
def npVar (l : List ℚ) : ℚ := ((l.map fun x => (x - npMean l) ^ 2).sum) / (l.length : ℚ)

/-- `numpy.std` over the rolling buffer (population standard deviation). -/
noncomputable def npStd (l : List ℚ) : ℝ := Real.sqrt ((npVar l : ℚ) : ℝ)

/-- Buffer roll of every windowed sensor: `buffer.append(x)` followed by
`if len(buffer) > window: buffer.pop(0)`. -/
def rollBuf (window : ℕ) (buffer : List ℚ) (x : ℚ) : List ℚ :=
  if window < (buffer ++ [x]).length then (buffer ++ [x]).tail else buffer ++ [x]

/-- The adaptive threshold of the base sensors:
`base_level + learning_rate * (std + hunger)`. -/
noncomputable def adaptiveLevel (base lr : ℚ) (buf : List ℚ) (hunger : ℚ) : ℝ :=
  (base : ℝ) + (lr : ℝ) * (npStd buf + (hunger : ℝ))

/-- One emitted reading of a windowed base sensor (the `result` dict of
`NoiseSensor.read`; the formatted `info` string and timestamp are not
modelled). -/
structure BReading where
  value : ℚ
  anomaly : Prop
  mean : ℚ
  std : ℝ
  hunger : ℚ
  growth_signal : Prop

/-- State of a windowed `BaseSensor` subclass: rolling buffer, drift hunger,
adaptive threshold, growth flag and emitted history. -/
structure BSensor where
  window : ℕ
  base_level : ℚ
  learning_rate : ℚ
  buffer : List ℚ
  hunger : ℚ
  adaptive_level : ℝ
  growth_signal : Prop
  history : List BReading

/-- The anomaly rule of `NoiseSensor.read` in `base_sensor.py`:
`abs(noise - mean) > adaptive_level * 2` over the rolled buffer. -/
def noiseAnomaly (s : BSensor) (x : ℚ) : Prop :=
  ((|x - npMean (rollBuf s.window s.buffer x)| : ℚ) : ℝ)
    > adaptiveLevel s.base_level s.learning_rate (rollBuf s.window s.buffer x) s.hunger * 2

open Classical in
/-- Drift-hunger update of `NoiseSensor.read`: decrement by the fixed step 1
clamped at zero on anomaly, otherwise increment by the per-kind step 0.1. -/
noncomputable def hungerNext (s : BSensor) (x : ℚ) : ℚ :=
  if noiseAnomaly s x then max 0 (s.hunger - 1) else s.hunger + 1/10

/-- The reading `NoiseSensor.read` emits after a valid observation. -/
noncomputable def noiseReading (s : BSensor) (x : ℚ) : BReading :=
  ⟨x, noiseAnomaly s x, npMean (rollBuf s.window s.buffer x),
    npStd (rollBuf s.window s.buffer x), hungerNext s x, (4 : ℚ) < hungerNext s x⟩

/-- Post-validation body of `NoiseSensor.read`: roll the buffer, recompute
mean/std and the adaptive threshold, flag the anomaly, update hunger and the
growth signal (`hunger > 4.0`), and append the reading to the history. -/
noncomputable def noiseReadBody (s : BSensor) (x : ℚ) : BSensor × Option BReading :=
  ({ s with
      buffer := rollBuf s.window s.buffer x,
      hunger := hungerNext s x,
      adaptive_level :=
        adaptiveLevel s.base_level s.learning_rate (rollBuf s.window s.buffer x) s.hunger,
      growth_signal := (4 : ℚ) < hungerNext s x,
      history := s.history ++ [noiseReading s x] },
    some (noiseReading s x))

/-- Python-side invalidity `not tick_data or field not in tick_data`: a
missing (`None`) observation, an empty dict, or a dict without the
generator's required field. -/
def tickBad (td : Option (List (String × ℚ))) (field : String) : Prop :=
  td = none ∨ ∃ tick, td = some tick ∧ (tick = [] ∨ alookup field tick = none)

/-- Shared read shape of the windowed base sensors (`NoiseSensor` with
`field = "noise"`, `PressureSensor` with `"pressure"`, `SuperVolumeSensor`
with `"volume"` in `base_sensor.py`): the validation
`if not tick_data or field not in tick_data: return None` runs before any
state is touched; the post-guard update is the `body` argument, so every
theorem about the validation path holds for each kind's real body. -/
def guardedRead (field : String) (body : BSensor → ℚ → BSensor × Option BReading)
    (s : BSensor) (td : Option (List (String × ℚ))) : BSensor × Option BReading :=
  match td with
  | none => (s, none)
  | some tick =>
    if tick = [] ∨ alookup field tick = none then (s, none)
    else body s ((alookup field tick).getD 0)

/-- `NoiseSensor.read` from `base_sensor.py`: validation, then the full
modelled body. -/
noncomputable def noiseRead (s : BSensor) (td : Option (List (String × ℚ))) :
    BSensor × Option BReading :=
  guardedRead "noise" noiseReadBody s td

/-- One emitted reading of `SuperNoiseSensor` (`_result`; the `info` string,
`level` tag and timestamp are not modelled). -/
structure SuperReading where
  volatility : ℚ
  anomaly : Bool
  max_jump : ℚ
  pressure : ℚ
  micro_spikes : ℕ
  micro_lulls : ℕ
  hunger : ℚ
  growth_signal : Bool
deriving DecidableEq

/-- State of a `core/sensors` Super sensor, generic in its reading type:
rolling buffer of tick records, history, drift hunger, threshold data. -/
structure SuperSensor (R : Type) where
  window : ℕ
  base_threshold : ℚ
  adaptive_threshold : ℚ
  learning_rate : ℚ
  buffer : List (List (String × ℚ))
  history : List R
  hunger : ℚ
  growth_signal : Bool

/-- The zeroed `_result(0, False, 0, 0, 0, 0, ...)` reading of the
`SuperNoiseSensor.read` guard: all measurements zero, `anomaly = False`, the
current hunger and growth state echoed. -/
def superNoiseNull (s : SuperSensor SuperReading) : SuperReading :=
  ⟨0, false, 0, 0, 0, 0, s.hunger, s.growth_signal⟩

/-- Validation path shared by `SuperNoiseSensor.read` (`field = "price"`),
`SuperPressureSensor.read` (`"pressure"`) and `SuperVolumeSensor.read`
(`"volume"`) in `core/sensors`: on a missing observation, an empty dict or a
missing required field they return their zeroed `_result` (the `null`
argument) built from the current state, having touched nothing; the analysis
after the guard is abstracted by `body`. -/
def superRead {R : Type} (field : String) (null : SuperSensor R → R)
    (body : SuperSensor R → List (String × ℚ) → SuperSensor R × R)
    (s : SuperSensor R) (td : Option (List (String × ℚ))) : SuperSensor R × R :=
  match td with
  | none => (s, null s)
  | some tick =>
    if tick = [] ∨ alookup field tick = none then (s, null s)
    else body s tick

/-- State of `SuperAggressiveSensor` (`sag_sensor.py`). -/
structure SagState where
  window : ℕ
  buffer : List (ℚ × ℚ × ℚ)
  anomaly_count : ℕ
  high_pressure_events : ℕ
  last_trade_time : ℚ
  anomaly_id : ℕ
  hunger : ℚ
deriving DecidableEq

/-- `SuperAggressiveSensor.read`: `tick_data.get("price")` is evaluated
before any validation, so a missing (`None`) observation raises
`AttributeError` (`None` has no `get`); a present dict without `price` logs
a warning and returns the empty dict `{}` (surfaced as `none`) with no state
mutation.  The `_analyze_tick` call after validation is abstracted by
`body`. -/
def sagRead {R : Type} (body : SagState → List (String × ℚ) → SagState × R)
    (s : SagState) (td : Option (List (String × ℚ))) :
    Except String (SagState × Option R) :=
  match td with
  | none => Except.error "AttributeError: NoneType object has no attribute get"
  | some tick =>
    match alookup "price" tick with
    | none => Except.ok (s, none)
    | some _ => Except.ok ((body s tick).1, some (body s tick).2)

theorem noiseRead_good (s : BSensor) (q : ℚ) :
    noiseRead s (some [("noise", q)]) = noiseReadBody s q := by
  simp [noiseRead, guardedRead, alookup]

/-- A read whose rolled buffer has mean equal to the incoming value and zero
variance (with nonnegative hunger and the default threshold parameters) is
quiet: no anomaly, hunger grows by the 0.1 step. -/
theorem quietCore (s : BSensor) (x : ℚ) (buf : List ℚ)
    (hb : s.base_level = 1) (hl : s.learning_rate = 1/10) (hh : 0 ≤ s.hunger)
    (hroll : rollBuf s.window s.buffer x = buf)
    (hmean : npMean buf = x) (hvar : npVar buf = 0) :
    (noiseRead s (some [("noise", x)])).1.window = s.window ∧
    (noiseRead s (some [("noise", x)])).1.base_level = 1 ∧
    (noiseRead s (some [("noise", x)])).1.learning_rate = 1/10 ∧
    (noiseRead s (some [("noise", x)])).1.buffer = buf ∧
    (noiseRead s (some [("noise", x)])).1.hunger = s.hunger + 1/10 := by
  have hstd : npStd buf = 0 := by
    rw [npStd, hvar]
    norm_num
  have hna : ¬ noiseAnomaly s x := by
    unfold noiseAnomaly adaptiveLevel
    rw [hroll, hmean, hstd, hb, hl]
    have hhr : (0 : ℝ) ≤ ((s.hunger : ℚ) : ℝ) := by exact_mod_cast hh
    intro hcon
    rw [sub_self, abs_zero] at hcon
    push_cast at hcon
    nlinarith [hhr]
  rw [noiseRead_good]
  unfold noiseReadBody
  refine ⟨rfl, hb, hl, hroll, ?_⟩
  show hungerNext s x = s.hunger + 1/10
  unfold hungerNext
  rw [if_neg hna]

/-- The state of the scenario generator: `window = 5`, default
`base_level = 1.0`, `learning_rate = 0.1`, empty buffer, zero hunger. -/
def c7Init : BSensor :=
  { window := 5, base_level := 1, learning_rate := 1/10, buffer := [], hunger := 0,
    adaptive_level := 1, growth_signal := False, history := [] }

/-- The generator state after the five quiet readings of value 1. -/
noncomputable def c7s5 : BSensor :=
  (noiseRead (noiseRead (noiseRead (noiseRead (noiseRead c7Init
    (some [("noise", 1)])).1 (some [("noise", 1)])).1 (some [("noise", 1)])).1
    (some [("noise", 1)])).1 (some [("noise", 1)])).1

theorem c7s5_fields :
    c7s5.window = 5 ∧ c7s5.base_level = 1 ∧ c7s5.learning_rate = 1/10 ∧
    c7s5.buffer = [1, 1, 1, 1, 1] ∧ c7s5.hunger = 1/2 := by
  obtain ⟨hw1, hb1, hl1, hbuf1, hh1⟩ :=
    quietCore c7Init 1 [1] rfl rfl (by norm_num [c7Init]) rfl
      (by norm_num [npMean, List.sum_cons, List.sum_nil])
      (by norm_num [npVar, npMean, List.sum_cons, List.sum_nil, List.map_cons, List.map_nil])
  obtain ⟨hw2, hb2, hl2, hbuf2, hh2⟩ :=
    quietCore (noiseRead c7Init (some [("noise", 1)])).1 1 [1, 1] hb1 hl1
      (by rw [hh1]; norm_num [c7Init]) (by rw [hw1, hbuf1]; rfl)
      (by norm_num [npMean, List.sum_cons, List.sum_nil])
      (by norm_num [npVar, npMean, List.sum_cons, List.sum_nil, List.map_cons, List.map_nil])
  obtain ⟨hw3, hb3, hl3, hbuf3, hh3⟩ :=
    quietCore (noiseRead (noiseRead c7Init (some [("noise", 1)])).1
        (some [("noise", 1)])).1 1 [1, 1, 1] hb2 hl2
      (by rw [hh2, hh1]; norm_num [c7Init]) (by rw [hw2, hw1, hbuf2]; rfl)
      (by norm_num [npMean, List.sum_cons, List.sum_nil])
      (by norm_num [npVar, npMean, List.sum_cons, List.sum_nil, List.map_cons, List.map_nil])
  obtain ⟨hw4, hb4, hl4, hbuf4, hh4⟩ :=
    quietCore (noiseRead (noiseRead (noiseRead c7Init (some [("noise", 1)])).1
        (some [("noise", 1)])).1 (some [("noise", 1)])).1 1 [1, 1, 1, 1] hb3 hl3
      (by rw [hh3, hh2, hh1]; norm_num [c7Init]) (by rw [hw3, hw2, hw1, hbuf3]; rfl)
      (by norm_num [npMean, List.sum_cons, List.sum_nil])
      (by norm_num [npVar, npMean, List.sum_cons, List.sum_nil, List.map_cons, List.map_nil])
  obtain ⟨hw5, hb5, hl5, hbuf5, hh5⟩ :=
    quietCore (noiseRead (noiseRead (noiseRead (noiseRead c7Init
        (some [("noise", 1)])).1 (some [("noise", 1)])).1 (some [("noise", 1)])).1
        (some [("noise", 1)])).1 1 [1, 1, 1, 1, 1] hb4 hl4
      (by rw [hh4, hh3, hh2, hh1]; norm_num [c7Init]) (by rw [hw4, hw3, hw2, hw1, hbuf4]; rfl)
      (by norm_num [npMean, List.sum_cons, List.sum_nil])
      (by norm_num [npVar, npMean, List.sum_cons, List.sum_nil, List.map_cons, List.map_nil])
  refine ⟨?_, hb5, hl5, hbuf5, ?_⟩
  · show (noiseRead _ (some [("noise", 1)])).1.window = 5
    rw [hw5, hw4, hw3, hw2, hw1]
    rfl
  · show (noiseRead _ (some [("noise", 1)])).1.hunger = 1/2
    rw [hh5, hh4, hh3, hh2, hh1]
    norm_num [c7Init]

/-- On a buffer of five ones and hunger `1/2`, reading the value 9 is
anomalous and clamps the hunger at zero. -/
theorem c7_anom_step (s : BSensor) (hw : s.window = 5) (hb : s.base_level = 1)
    (hl : s.learning_rate = 1/10) (hbuf : s.buffer = [1, 1, 1, 1, 1]) (hh : s.hunger = 1/2) :
    noiseAnomaly s 9 ∧ hungerNext s 9 = 0 ∧
    (noiseRead s (some [("noise", 9)])).2 = some (noiseReading s 9) ∧
    (noiseRead s (some [("noise", 9)])).1.hunger = 0 := by
  have hroll : rollBuf s.window s.buffer 9 = [1, 1, 1, 1, 9] := by
    rw [hw, hbuf]
    rfl
  have hvar : npVar [1, 1, 1, 1, 9] = 256/25 := by
    norm_num [npVar, npMean, List.sum_cons, List.sum_nil, List.map_cons, List.map_nil]
  have hmean : npMean [1, 1, 1, 1, 9] = 13/5 := by
    norm_num [npMean, List.sum_cons, List.sum_nil]
  have hstd : npStd [1, 1, 1, 1, 9] = 16/5 := by
    rw [npStd, hvar]
    rw [show (((256 : ℚ)/25 : ℚ) : ℝ) = (16/5 : ℝ) ^ 2 by norm_num]
    exact Real.sqrt_sq (by norm_num)
  have habs : |(9 : ℚ) - 13/5| = 32/5 := by
    rw [abs_of_pos (by norm_num)]
    norm_num
  have hna : noiseAnomaly s 9 := by
    unfold noiseAnomaly adaptiveLevel
    rw [hroll, hmean, hstd, hb, hl, hh, habs]
    push_cast
    norm_num
  have hhn : hungerNext s 9 = 0 := by
    unfold hungerNext
    rw [if_pos hna, hh]
    norm_num
  refine ⟨hna, hhn, ?_, ?_⟩
  · rw [noiseRead_good]
    rfl
  · rw [noiseRead_good]
    exact hhn

/-- C7 counterexample: on the `[1,1,1,1,1,9]` scenario the sixth read is
flagged anomalous, but `drift_hunger` does not end at its pre-read value
minus the configured decrement 1 -- the pre-read value is `0.5` and the
post-read value is the clamp `0`, not `-0.5`. -/
theorem c7_hunger_counterexample :
    c7s5.hunger = 1/2 ∧
    (∃ rd, (noiseRead c7s5 (some [("noise", 9)])).2 = some rd ∧ rd.anomaly ∧ rd.hunger = 0) ∧
    (noiseRead c7s5 (some [("noise", 9)])).1.hunger = 0 ∧
    (noiseRead c7s5 (some [("noise", 9)])).1.hunger ≠ c7s5.hunger - 1 := by
  obtain ⟨hw, hb, hl, hbuf, hh⟩ := c7s5_fields
  obtain ⟨hna, hhn, hr2, hr1⟩ := c7_anom_step c7s5 hw hb hl hbuf hh
  refine ⟨hh, ⟨noiseReading c7s5 9, hr2, hna, hhn⟩, hr1, ?_⟩
  rw [hr1, hh]
  norm_num

/-- C7 as amended: with `window = 5`, default threshold parameters and the
value sequence `[1,1,1,1,1,9]`, the sixth read flags `anomaly = true` and
`drift_hunger` becomes `max 0 (pre - 1)` -- the fixed decrement clamped at
zero, here `0` since the pre-read value `0.5` is below the decrement. -/
theorem c7_anomaly_scenario :
    (∃ rd, (noiseRead c7s5 (some [("noise", 9)])).2 = some rd ∧ rd.anomaly) ∧
    (noiseRead c7s5 (some [("noise", 9)])).1.hunger = max 0 (c7s5.hunger - 1) ∧
    (noiseRead c7s5 (some [("noise", 9)])).1.hunger = 0 := by
  obtain ⟨hw, hb, hl, hbuf, hh⟩ := c7s5_fields
  obtain ⟨hna, hhn, hr2, hr1⟩ := c7_anom_step c7s5 hw hb hl hbuf hh
  refine ⟨⟨noiseReading c7s5 9, hr2, hna⟩, ?_, hr1⟩
  rw [hr1, hh]
  norm_num

/-- A `SuperAggressiveSensor` state with defaults (`window = 100`,
`hunger = 1.0`) and empty buffers. -/
def sag0 : SagState := ⟨100, [], 0, 0, 0, 0, 1⟩

/-- A `SuperNoiseSensor` state with defaults (`window = 100`,
`base_threshold = 2.0`) and empty buffers. -/
def sup0 : SuperSensor SuperReading := ⟨100, 2, 2, 1/10, [], [], 0, false⟩

/-- C8 counterexample: the `SuperAggressiveSensor` generator kind is fatal on
a missing observation -- `read(None)` raises `AttributeError` instead of
returning a null reading, whatever its analysis body does. -/
theorem c8_sag_counterexample :
    sagRead (fun (s : SagState) (_ : List (String × ℚ)) => (s, (0 : ℕ))) sag0 none
      = Except.error "AttributeError: NoneType object has no attribute get" ∧
    ∀ r : SagState × Option ℕ,
      sagRead (fun (s : SagState) (_ : List (String × ℚ)) => (s, (0 : ℕ))) sag0 none
        ≠ Except.ok r := by
  refine ⟨rfl, ?_⟩
  intro r h
  simp [sagRead] at h

/-- C8 as amended: every windowed sensor kind validates its input before any
mutation.  On a missing observation, an empty dict, or a dict lacking the
required field, the `base_sensor.py` kinds return `None` and the
`core/sensors` Super kinds return their zeroed `_result`, in both cases with
the buffer, hunger, threshold and history untouched (for every post-guard
body, hence for the real ones); `SuperAggressiveSensor` likewise returns its
empty reading without mutation when `price` is missing from a present dict,
but is the exception on a missing (`None`) observation, where it raises
`AttributeError` -- fatal for its caller. -/
theorem c8_null_reading (field : String) (td : Option (List (String × ℚ)))
    (hbad : tickBad td field) :
    (∀ (body : BSensor → ℚ → BSensor × Option BReading) (s : BSensor),
      guardedRead field body s td = (s, none)) ∧
    (∀ (R : Type) (null : SuperSensor R → R)
        (body : SuperSensor R → List (String × ℚ) → SuperSensor R × R) (s : SuperSensor R),
      superRead field null body s td = (s, null s)) ∧
    (∀ (R : Type) (body : SagState → List (String × ℚ) → SagState × R) (s : SagState)
        (tick : List (String × ℚ)), alookup "price" tick = none →
      sagRead body s (some tick) = Except.ok (s, none)) ∧
    (∀ (R : Type) (body : SagState → List (String × ℚ) → SagState × R) (s : SagState),
      sagRead body s none
        = Except.error "AttributeError: NoneType object has no attribute get") := by
  rcases hbad with rfl | ⟨tick, rfl, h2⟩
  · exact ⟨fun body s => rfl, fun R null body s => rfl,
      fun R body s tick hp => by unfold sagRead; dsimp only; rw [hp], fun R body s => rfl⟩
  · refine ⟨?_, ?_, fun R body s tick2 hp => by unfold sagRead; dsimp only; rw [hp],
      fun R body s => rfl⟩
    · intro body s
      unfold guardedRead
      dsimp only
      rw [if_pos h2]
    · intro R null body s
      unfold superRead
      dsimp only
      rw [if_pos h2]

/-- Instantiation of the amended C8 theorem: the empty observation gives a
null reading and unchanged state for the base noise kind and the Super noise
kind, and the `SuperAggressiveSensor` passes through a priceless dict
untouched. -/
theorem c8_null_reading_witness :
    guardedRead "noise" noiseReadBody c7Init (some []) = (c7Init, none) ∧
    superRead "price" superNoiseNull (fun s _ => (s, superNoiseNull s)) sup0 (some [])
      = (sup0, superNoiseNull sup0) ∧
    sagRead (fun (s : SagState) (_ : List (String × ℚ)) => (s, (0 : ℕ))) sag0
        (some [("volume", 3)])
      = Except.ok (sag0, none) := by
  have h1 := c8_null_reading "noise" (some ([] : List (String × ℚ)))
    (Or.inr ⟨[], rfl, Or.inl rfl⟩)
  have h2 := c8_null_reading "price" (some ([] : List (String × ℚ)))
    (Or.inr ⟨[], rfl, Or.inl rfl⟩)
  exact ⟨h1.1 noiseReadBody c7Init,
    h2.2.1 SuperReading superNoiseNull (fun s _ => (s, superNoiseNull s)) sup0,
    h2.2.2.1 ℕ (fun s _ => (s, (0 : ℕ))) sag0 [("volume", 3)] (by simp [alookup])⟩

end Gie2
